import Mathlib

/-!
Verification of the `pygments-dark.py` style module.

The module declares a pygments style class `DarkStyle` with three scalar
settings (`background_color`, `highlight_color`, `default_style`) and a
`styles` dictionary literal mapping pygments token categories to style-spec
strings.  A pygments token category is a hierarchical name rooted at one of
the identifiers imported from `pygments.token`; we embed a category as its
path of name components, e.g. `Name.Class` becomes `["Name", "Class"]`.

A Python dictionary literal is evaluated as an ordered sequence of
assignments into an initially empty dictionary, so a later entry for a
duplicated key overwrites the earlier one.  We embed the literal as the
ordered list of its entries and the resulting dictionary as the function
obtained by folding those assignment updates over the empty map.
-/

set_option autoImplicit false

/-- Token category `Comment` from `pygments.token`, as its component path. -/
def Tok.Comment := ["Comment"]

/-- Token category `Comment.Preproc`. -/
def Tok.Comment.Preproc := ["Comment", "Preproc"]

/-- Token category `Comment.PreprocFile`. -/
def Tok.Comment.PreprocFile := ["Comment", "PreprocFile"]

/-- Token category `Keyword` from `pygments.token`. -/
def Tok.Keyword := ["Keyword"]

/-- Token category `Name` from `pygments.token`. -/
def Tok.Name := ["Name"]

/-- Token category `Name.Class`. -/
def Tok.Name.Class := ["Name", "Class"]

/-- Token category `Name.Builtin`. -/
def Tok.Name.Builtin := ["Name", "Builtin"]

/-- Token category `Name.Function`. -/
def Tok.Name.Function := ["Name", "Function"]

/-- Token category `Name.Namespace`. -/
def Tok.Name.Namespace := ["Name", "Namespace"]

/-- Token category `Name.Variable`. -/
def Tok.Name.Variable := ["Name", "Variable"]

/-- Token category `Name.Tag`. -/
def Tok.Name.Tag := ["Name", "Tag"]

/-- Token category `Name.Attribute`. -/
def Tok.Name.Attribute := ["Name", "Attribute"]

/-- Token category `String` from `pygments.token`. -/
def Tok.String := ["String"]

/-- Token category `String.Char`. -/
def Tok.String.Char := ["String", "Char"]

/-- Token category `String.Escape`. -/
def Tok.String.Escape := ["String", "Escape"]

/-- Token category `String.Interpol`. -/
def Tok.String.Interpol := ["String", "Interpol"]

/-- Token category `Number` from `pygments.token`. -/
def Tok.Number := ["Number"]

/-- Token category `Operator` from `pygments.token`. -/
def Tok.Operator := ["Operator"]

/-- Token category `Operator.Word`. -/
def Tok.Operator.Word := ["Operator", "Word"]

/-- Token category `Punctuation` from `pygments.token`. -/
def Tok.Punctuation := ["Punctuation"]

/-- Token category `Generic` from `pygments.token`. -/
def Tok.Generic := ["Generic"]

/-- Token category `Generic.Heading`. -/
def Tok.Generic.Heading := ["Generic", "Heading"]

/-- Token category `Generic.Subheading`. -/
def Tok.Generic.Subheading := ["Generic", "Subheading"]

/-- Token category `Generic.Emph`. -/
def Tok.Generic.Emph := ["Generic", "Emph"]

/-- Token category `Generic.Strong`. -/
def Tok.Generic.Strong := ["Generic", "Strong"]

/-- Token category `Generic.Inserted`. -/
def Tok.Generic.Inserted := ["Generic", "Inserted"]

/-- Token category `Generic.Deleted`. -/
def Tok.Generic.Deleted := ["Generic", "Deleted"]

/-- The token categories imported from `pygments.token` at the top of the
module (`Keyword, Name, Comment, String, Error, Literal, Number, Operator,
Other, Punctuation, Text, Generic, Whitespace`), as component paths. -/
def importedCategories : List (List String) :=
  [["Keyword"], ["Name"], ["Comment"], ["String"], ["Error"],
   ["Literal"], ["Number"], ["Operator"], ["Other"], ["Punctuation"],
   ["Text"], ["Generic"], ["Whitespace"]]

/-- The eight token-category roots actually used by the table: the
categories named by the claim (`Comment, Keyword, Name, String, Number,
Operator, Punctuation, Generic`), a subset of `importedCategories`. -/
def claimedVocabularyRoots : List (List String) :=
  [["Comment"], ["Keyword"], ["Name"], ["String"], ["Number"],
   ["Operator"], ["Punctuation"], ["Generic"]]

/-- `DarkStyle.background_color = None`: no background colour override. -/
def DarkStyle.background_color : Option String := none

/-- `DarkStyle.highlight_color = '#34424d'`. -/
def DarkStyle.highlight_color : String := "#34424d"

/-- `DarkStyle.default_style = ""`. -/
def DarkStyle.default_style : String := ""

/-- The `DarkStyle.styles` dictionary literal, as the ordered list of its
entries exactly as written in the source (duplicated keys included). -/
def DarkStyle.styles : List (List String × String) :=
  [ (Tok.Comment,             "#686e78"),
    (Tok.Comment.Preproc,     "#c67ada"),
    (Tok.Comment.PreprocFile, "#83a76e"),
    (Tok.Keyword,             "#c67ada"),
    (Tok.Name,                "#9daaaa"),
    (Tok.Name.Class,          "#dbba75"),
    (Tok.Name.Builtin,        "#dbba75"),
    (Tok.Name.Function,       "#61afef"),
    (Tok.Name.Namespace,      "#00997b"),
    (Tok.String,              "#83a76e"),
    (Tok.String.Char,         "#83a76e"),
    (Tok.String.Escape,       "#83a76e"),
    (Tok.String.Interpol,     "#83a76e"),
    (Tok.Number,              "#d29767"),
    (Tok.Operator,            "#9daaaa"),
    (Tok.Punctuation,         "#9daaaa"),
    (Tok.Name.Builtin,        "#dbba75"),
    (Tok.Name.Variable,       "#9daaaa"),
    (Tok.Name.Tag,            "bold #dcdcdc"),
    (Tok.Name.Attribute,      "bold #dcdcdc"),
    (Tok.Name.Class,          "bold #dcdcdc"),
    (Tok.Operator.Word,       "bold #dcdcdc"),
    (Tok.Generic.Heading,     "bold #ffffff"),
    (Tok.Generic.Emph,        "italic #e6e6e6"),
    (Tok.Generic.Strong,      "bold #e6e6e6"),
    (Tok.Generic.Subheading,  "#5b9dd9"),
    (Tok.Generic.Inserted,    "#3bd267"),
    (Tok.Generic.Deleted,     "#cd3431") ]

/-- One Python dictionary assignment `d[kv.1] = kv.2`, as a map update. -/
def dictUpdate {K V : Type} [DecidableEq K] (d : K → Option V) (kv : K × V) :
    K → Option V :=
  fun k => if k = kv.1 then some kv.2 else d k

/-- The dictionary denoted by a Python dictionary literal: the entries are
assigned in order into the empty dictionary, so later entries for a
duplicated key overwrite earlier ones. -/
def dictOfLiteral {K V : Type} [DecidableEq K] (entries : List (K × V)) :
    K → Option V :=
  entries.foldl dictUpdate (fun _ => none)

/-- The value of the last entry of `entries` whose key is `k`, if any. -/
def lastDecl {K V : Type} [DecidableEq K] : List (K × V) → K → Option V
  | [], _ => none
  | kv :: rest, k =>
    match lastDecl rest k with
    | some v => some v
    | none => if k = kv.1 then some kv.2 else none

/-- Number of entries of `entries` whose key is `k`. -/
def countKey {K V : Type} [DecidableEq K] (entries : List (K × V)) (k : K) : Nat :=
  entries.countP (fun kv => decide (kv.1 = k))

/-- The values of the entries of `entries` whose key is `k`, in order. -/
def valuesFor {K V : Type} [DecidableEq K] (entries : List (K × V)) (k : K) :
    List V :=
  (entries.filter (fun kv => decide (kv.1 = k))).map Prod.snd

/-- Whether `c` is a hexadecimal digit. -/
def isHexDigitChar (c : Char) : Bool :=
  (('0' ≤ c) && (c ≤ '9')) || (('a' ≤ c) && (c ≤ 'f')) || (('A' ≤ c) && (c ≤ 'F'))

/-- Split a character list into words at space characters. -/
def splitWords (l : List Char) : List (List Char) :=
  let p := l.foldr
    (fun c (acc : List Char × List (List Char)) =>
      if c = ' ' then ([], acc.1 :: acc.2) else (c :: acc.1, acc.2))
    ([], [])
  p.1 :: p.2

/-- Whether `w` is one of the modifier keywords `bold`, `italic`. -/
def isModifierWord (w : List Char) : Bool :=
  w == "bold".data || w == "italic".data

/-- Whether `w` is a colour literal: `#` followed by exactly six hex digits. -/
def isColorWord (w : List Char) : Bool :=
  match w with
  | '#' :: ds => ds.length == 6 && ds.all isHexDigitChar
  | _ => false

/-- Whether a non-empty word list consists of zero or more modifier words
followed by at most one colour literal in final position. -/
def modsThenOptColor : List (List Char) → Bool
  | [] => true
  | [w] => isModifierWord w || isColorWord w
  | w :: rest => isModifierWord w && modsThenOptColor rest

/-- Whether a style-spec string matches the spec grammar
`(bold|italic)* (#RRGGBB)?` with words separated by single spaces. -/
def matchesSpecGrammar (s : String) : Bool :=
  modsThenOptColor (splitWords s.data)

/-- Number of colour literals among the words of a style-spec string. -/
def colorWordCount (s : String) : Nat :=
  (splitWords s.data).countP isColorWord

/-- Whether token-category path `k` equals, or lies below, category path
`c` in the hierarchy: `c` is a path prefix of `k`. -/
def isUnderCategory (c k : List String) : Bool :=
  match c, k with
  | [], _ => true
  | _ :: _, [] => false
  | c0 :: cs, k0 :: ks => c0 == k0 && isUnderCategory cs ks


/-- A serialized style: the table entries together with the three scalar
settings. -/
structure SerializedStyle where
  entries : List (List String × String)
  background : Option String
  highlight : String
  defaultStyle : String
  deriving DecidableEq

/-- Modelled from the spec: serialization of the style table is performed by
the external highlighting library and has no code in this repository.
Following the spec, serializing writes out the effective mapping — one entry
per distinct key of the table, in first-occurrence order, carrying the
effective (last-declared) value — together with the background, highlight and
default-style settings. -/
def serializeDarkStyle : SerializedStyle :=
  { entries := ((DarkStyle.styles.map Prod.fst).eraseDups).filterMap
      (fun k => (dictOfLiteral DarkStyle.styles k).map (fun v => (k, v)))
    background := DarkStyle.background_color
    highlight := DarkStyle.highlight_color
    defaultStyle := DarkStyle.default_style }

/-- Modelled from the spec: reloading a serialized style evaluates its
entries as an ordered sequence of assignments again, yielding the effective
mapping of the reloaded style. -/
def reloadEffective (s : SerializedStyle) : List String → Option String :=
  dictOfLiteral s.entries

theorem foldl_dictUpdate {K V : Type} [DecidableEq K]
    (entries : List (K × V)) (d : K → Option V) (k : K) :
    (entries.foldl dictUpdate d) k =
      match lastDecl entries k with
      | some v => some v
      | none => d k := by
  induction entries generalizing d with
  | nil => rfl
  | cons kv rest ih =>
    show (rest.foldl dictUpdate (dictUpdate d kv)) k = _
    rw [ih]
    cases h : lastDecl rest k with
    | some v => simp [lastDecl, h]
    | none =>
      by_cases hk : k = kv.1
      · subst hk
        simp [lastDecl, h, dictUpdate]
      · simp [lastDecl, h, dictUpdate, hk]

theorem dictOfLiteral_eq_lastDecl {K V : Type} [DecidableEq K]
    (entries : List (K × V)) (k : K) :
    dictOfLiteral entries k = lastDecl entries k := by
  show (entries.foldl dictUpdate (fun _ => none)) k = _
  rw [foldl_dictUpdate]
  cases lastDecl entries k <;> rfl

theorem lastDecl_eq_none_of_notMem {K V : Type} [DecidableEq K]
    (entries : List (K × V)) (k : K) (h : k ∉ entries.map Prod.fst) :
    lastDecl entries k = none := by
  induction entries with
  | nil => rfl
  | cons kv rest ih =>
    have h1 : k ∉ rest.map Prod.fst := fun hm => h (by simp [hm])
    have h2 : ¬ k = kv.1 := fun he => h (by simp [he])
    simp [lastDecl, ih h1, h2]

theorem lastDecl_mem {K V : Type} [DecidableEq K]
    (entries : List (K × V)) (k : K) (v : V)
    (h : lastDecl entries k = some v) : (k, v) ∈ entries := by
  induction entries with
  | nil => simp [lastDecl] at h
  | cons kv rest ih =>
    rw [lastDecl] at h
    cases hr : lastDecl rest k with
    | some w =>
      rw [hr] at h
      cases h
      exact List.mem_cons_of_mem _ (ih hr)
    | none =>
      rw [hr] at h
      by_cases hk : k = kv.1
      · rw [if_pos hk] at h
        cases h
        exact hk ▸ List.mem_cons_self _ _
      · rw [if_neg hk] at h
        cases h

/-- C1: for every token category that appears more than once in the styles
table, the effective value in the resulting dictionary equals the
last-declared value; in particular `Name.Builtin` resolves to `#dbba75` and
`Name.Class` resolves to `bold #dcdcdc`. -/
theorem c1_duplicate_keys_last_write_wins (k : List String)
    (h : 2 ≤ countKey DarkStyle.styles k) :
    dictOfLiteral DarkStyle.styles k = lastDecl DarkStyle.styles k ∧
    dictOfLiteral DarkStyle.styles Tok.Name.Builtin = some "#dbba75" ∧
    dictOfLiteral DarkStyle.styles Tok.Name.Class = some "bold #dcdcdc" :=
  ⟨dictOfLiteral_eq_lastDecl _ _, by decide, by decide⟩

/-- C1 witness: the theorem instantiated at the duplicated key
`Name.Builtin`, which occurs twice in the table. -/
theorem c1_duplicate_keys_last_write_wins_witness :
    2 ≤ countKey DarkStyle.styles Tok.Name.Builtin ∧
    (dictOfLiteral DarkStyle.styles Tok.Name.Builtin =
        lastDecl DarkStyle.styles Tok.Name.Builtin ∧
      dictOfLiteral DarkStyle.styles Tok.Name.Builtin = some "#dbba75" ∧
      dictOfLiteral DarkStyle.styles Tok.Name.Class = some "bold #dcdcdc") :=
  ⟨by decide, c1_duplicate_keys_last_write_wins Tok.Name.Builtin (by decide)⟩

/-- C2 counterexample: the claim that the two declared values of each of
`Name.Class` and `Name.Builtin` differ fails at `Name.Builtin`, whose two
declarations both carry the value `#dbba75`. -/
theorem c2_counterexample_name_builtin_values_equal :
    valuesFor DarkStyle.styles Tok.Name.Builtin = ["#dbba75", "#dbba75"] ∧
    ¬ (valuesFor DarkStyle.styles Tok.Name.Builtin).Nodup := by
  decide

/-- C2 (amended): `Name.Class` and `Name.Builtin` each appear exactly twice
in the styles table; the two values declared for `Name.Class` differ
(`#dbba75`, then `bold #dcdcdc`), while both declarations of `Name.Builtin`
carry the identical value `#dbba75`; in each case the second declaration is
the effective one. -/
theorem c2_amended_duplicate_declarations :
    countKey DarkStyle.styles Tok.Name.Class = 2 ∧
    countKey DarkStyle.styles Tok.Name.Builtin = 2 ∧
    valuesFor DarkStyle.styles Tok.Name.Class = ["#dbba75", "bold #dcdcdc"] ∧
    (valuesFor DarkStyle.styles Tok.Name.Class).Nodup ∧
    valuesFor DarkStyle.styles Tok.Name.Builtin = ["#dbba75", "#dbba75"] ∧
    dictOfLiteral DarkStyle.styles Tok.Name.Class = some "bold #dcdcdc" ∧
    dictOfLiteral DarkStyle.styles Tok.Name.Builtin = some "#dbba75" := by
  decide

/-- C3: every style-spec string in the table matches the grammar: zero or
more modifier keywords among `bold`, `italic`, followed by an optional `#`
plus exactly six hexadecimal digits, or modifiers alone with no colour. -/
theorem c3_values_match_grammar :
    DarkStyle.styles.all (fun kv => matchesSpecGrammar kv.2) = true := by
  decide

/-- C4: the style's `highlight_color` setting equals `#34424d`. -/
theorem c4_highlight_color : DarkStyle.highlight_color = "#34424d" := rfl

/-- C5: the style's `background_color` setting is the unset sentinel
(`None`), carrying no colour value. -/
theorem c5_background_color_unset : DarkStyle.background_color = none := rfl

/-- C6: the style's `default_style` fallback setting is the empty string,
selecting no fallback style. -/
theorem c6_default_style_empty : DarkStyle.default_style = "" := rfl

/-- C7: serializing the effective style table and reloading the serialized
form yields an effective mapping identical to the original, and preserves
the three scalar settings. -/
theorem c7_serialize_reload_roundtrip :
    (∀ k, reloadEffective serializeDarkStyle k = dictOfLiteral DarkStyle.styles k) ∧
    serializeDarkStyle.background = DarkStyle.background_color ∧
    serializeDarkStyle.highlight = DarkStyle.highlight_color ∧
    serializeDarkStyle.defaultStyle = DarkStyle.default_style := by
  refine ⟨?_, rfl, rfl, rfl⟩
  intro k
  by_cases hk : k ∈ DarkStyle.styles.map Prod.fst
  · have h : ∀ k2 ∈ DarkStyle.styles.map Prod.fst,
        reloadEffective serializeDarkStyle k2 = dictOfLiteral DarkStyle.styles k2 := by
      decide
    exact h k hk
  · have hsub : ∀ x ∈ serializeDarkStyle.entries.map Prod.fst,
        x ∈ DarkStyle.styles.map Prod.fst := by decide
    have hk2 : k ∉ serializeDarkStyle.entries.map Prod.fst :=
      fun hmem => hk (hsub k hmem)
    show dictOfLiteral serializeDarkStyle.entries k = _
    rw [dictOfLiteral_eq_lastDecl, dictOfLiteral_eq_lastDecl,
      lastDecl_eq_none_of_notMem _ _ hk2, lastDecl_eq_none_of_notMem _ _ hk]

/-- C8: every key of the styles table is one of the token categories
`Comment, Keyword, Name, String, Number, Operator, Punctuation, Generic`
or a hierarchical subcategory of one of them, and each of those eight
categories is among the module's imports from `pygments.token`. -/
theorem c8_keys_in_vocabulary :
    (DarkStyle.styles.map Prod.fst).all
      (fun k => claimedVocabularyRoots.any (fun c => isUnderCategory c k)) = true ∧
    claimedVocabularyRoots.all (fun c => importedCategories.contains c) = true := by
  decide

/-- C9: every style-spec string in the effective mapping contains exactly
one `#RRGGBB` colour literal — the bare-modifier form never occurs — and
every token category listed in the table has an effective value, so each is
assigned an explicit foreground colour. -/
theorem c9_every_effective_value_has_one_color (k : List String) (v : String)
    (h : dictOfLiteral DarkStyle.styles k = some v) :
    colorWordCount v = 1 ∧
    ∀ k2 ∈ DarkStyle.styles.map Prod.fst,
      (dictOfLiteral DarkStyle.styles k2).isSome = true := by
  refine ⟨?_, by decide⟩
  have hm : (k, v) ∈ DarkStyle.styles :=
    lastDecl_mem _ _ _ ((dictOfLiteral_eq_lastDecl DarkStyle.styles k) ▸ h)
  have hall : ∀ kv ∈ DarkStyle.styles, colorWordCount kv.2 = 1 := by decide
  exact hall _ hm

/-- C9 witness: the theorem instantiated at the key `String` with its
effective value `#83a76e`. -/
theorem c9_every_effective_value_has_one_color_witness :
    dictOfLiteral DarkStyle.styles Tok.String = some "#83a76e" ∧
    (colorWordCount "#83a76e" = 1 ∧
      ∀ k2 ∈ DarkStyle.styles.map Prod.fst,
        (dictOfLiteral DarkStyle.styles k2).isSome = true) :=
  ⟨by decide, c9_every_effective_value_has_one_color Tok.String "#83a76e" (by decide)⟩

/-- C10: in the effective mapping, the categories `String`, `String.Char`,
`String.Escape`, `String.Interpol` and `Comment.PreprocFile` all carry the
identical style spec `#83a76e`. -/
theorem c10_string_family_single_color :
    dictOfLiteral DarkStyle.styles Tok.String = some "#83a76e" ∧
    dictOfLiteral DarkStyle.styles Tok.String.Char = some "#83a76e" ∧
    dictOfLiteral DarkStyle.styles Tok.String.Escape = some "#83a76e" ∧
    dictOfLiteral DarkStyle.styles Tok.String.Interpol = some "#83a76e" ∧
    dictOfLiteral DarkStyle.styles Tok.Comment.PreprocFile = some "#83a76e" := by
  decide
